import Mathlib

/-!
Shallow embedding of the prover-service binding/commitment protocol
(src/prover-service/src/prover.rs and src/prover-service/src/verification.rs).

Modelling conventions.  Byte strings are `List Nat` (each entry one byte).
Rust `String`s are Lean `String`s; whenever the code hashes a string it hashes
its UTF-8 bytes, modelled by `utf8Bytes`.  An `f32` value is represented by its
32-bit IEEE-754 bit pattern (a `Nat` below `2 ^ 32`): the hashing path consumes
floats only through `f32::to_le_bytes`, which is exactly the little-endian
bytes of that pattern (`f32LeBytes`); no floating-point arithmetic occurs in
any hashed quantity.  SHA-256 (the `sha2` crate) is implemented in full below;
the crate's streaming `update`/`finalize` interface is modelled by
`Sha256Hasher`, which accumulates the absorbed bytes and digests them at
`finalize` - the documented semantics of the streaming API.  The base64 and
serde_json codecs are external crates: where a claim depends on their outcome,
the decode/parse result is passed in as an `Except` value.
-/

namespace CoinbaseProver

/-- Rotation to the right by `n` bits of a 32-bit word held in a `Nat`. -/
def rotr32 (n x : Nat) : Nat := ((x >>> n) ||| (x <<< (32 - n))) % 2 ^ 32

/-- Choice function of SHA-256 (bitwise, 32-bit complement via xor with all-ones). -/
def ch32 (x y z : Nat) : Nat := (x &&& y) ^^^ ((x ^^^ 0xffffffff) &&& z)

/-- Majority function of SHA-256. -/
def maj32 (x y z : Nat) : Nat := (x &&& y) ^^^ (x &&& z) ^^^ (y &&& z)

/-- Big sigma-0 of SHA-256. -/
def bigSig0 (x : Nat) : Nat := rotr32 2 x ^^^ rotr32 13 x ^^^ rotr32 22 x

/-- Big sigma-1 of SHA-256. -/
def bigSig1 (x : Nat) : Nat := rotr32 6 x ^^^ rotr32 11 x ^^^ rotr32 25 x

/-- Small sigma-0 of SHA-256. -/
def smallSig0 (x : Nat) : Nat := rotr32 7 x ^^^ rotr32 18 x ^^^ (x >>> 3)

/-- Small sigma-1 of SHA-256. -/
def smallSig1 (x : Nat) : Nat := rotr32 17 x ^^^ rotr32 19 x ^^^ (x >>> 10)

/-- Round constants of SHA-256 (FIPS 180-4 section 4.2.2), in decimal. -/
def sha256K : List Nat :=
  [1116352408, 1899447441, 3049323471, 3921009573, 961987163, 1508970993,
   2453635748, 2870763221, 3624381080, 310598401, 607225278, 1426881987,
   1925078388, 2162078206, 2614888103, 3248222580, 3835390401, 4022224774,
   264347078, 604807628, 770255983, 1249150122, 1555081692, 1996064986,
   2554220882, 2821834349, 2952996808, 3210313671, 3336571891, 3584528711,
   113926993, 338241895, 666307205, 773529912, 1294757372, 1396182291,
   1695183700, 1986661051, 2177026350, 2456956037, 2730485921, 2820302411,
   3259730800, 3345764771, 3516065817, 3600352804, 4094571909, 275423344,
   430227734, 506948616, 659060556, 883997877, 958139571, 1322822218,
   1537002063, 1747873779, 1955562222, 2024104815, 2227730452, 2361852424,
   2428436474, 2756734187, 3204031479, 3329325298]

/-- Initial hash state of SHA-256 (FIPS 180-4 section 5.3.3), in decimal. -/
def sha256InitHash : List Nat :=
  [1779033703, 3144134277, 1013904242, 2773480762,
   1359893119, 2600822924, 528734635, 1541459225]

/-- Padding of SHA-256: a 0x80 byte, zeros to 56 mod 64, then the bit length
in 8 big-endian bytes. -/
def sha256Pad (msg : List Nat) : List Nat :=
  let bits := msg.length * 8
  msg ++ 0x80 :: (List.replicate ((119 - msg.length % 64) % 64) 0 ++
    [(bits >>> 56) % 256, (bits >>> 48) % 256, (bits >>> 40) % 256, (bits >>> 32) % 256,
     (bits >>> 24) % 256, (bits >>> 16) % 256, (bits >>> 8) % 256, bits % 256])

/-- Grouping of a byte list into big-endian 32-bit words. -/
def bytesToWordsBE : List Nat → List Nat
  | b0 :: b1 :: b2 :: b3 :: rest =>
      ((b0 <<< 24) ||| (b1 <<< 16) ||| (b2 <<< 8) ||| b3) :: bytesToWordsBE rest
  | _ => []

/-- Grouping of a word list into blocks of 16 words (one 512-bit block each). -/
def wordsToBlocks : List Nat → List (List Nat)
  | w0 :: w1 :: w2 :: w3 :: w4 :: w5 :: w6 :: w7 ::
    w8 :: w9 :: w10 :: w11 :: w12 :: w13 :: w14 :: w15 :: rest =>
      [w0, w1, w2, w3, w4, w5, w6, w7, w8, w9, w10, w11, w12, w13, w14, w15] ::
        wordsToBlocks rest
  | _ => []

/-- Message-schedule expansion of one block from 16 to 64 words. -/
def sha256Schedule (block : List Nat) : List Nat :=
  (List.range 48).foldl
    (fun w j =>
      let i := j + 16
      w ++ [(smallSig1 (w.getD (i - 2) 0) + w.getD (i - 7) 0 + smallSig0 (w.getD (i - 15) 0) +
        w.getD (i - 16) 0) % 2 ^ 32])
    block

/-- Working variables of the SHA-256 compression loop. -/
structure Sha256State where
  a : Nat
  b : Nat
  c : Nat
  d : Nat
  e : Nat
  f : Nat
  g : Nat
  h : Nat

/-- One round of the SHA-256 compression loop. -/
def sha256Round (k w : Nat) (s : Sha256State) : Sha256State :=
  let t1 := (s.h + bigSig1 s.e + ch32 s.e s.f s.g + k + w) % 2 ^ 32
  let t2 := (bigSig0 s.a + maj32 s.a s.b s.c) % 2 ^ 32
  { a := (t1 + t2) % 2 ^ 32, b := s.a, c := s.b, d := s.c,
    e := (s.d + t1) % 2 ^ 32, f := s.e, g := s.f, h := s.g }

/-- Compression of one 16-word block into the running 8-word hash state. -/
def sha256Compress (hs : List Nat) (block : List Nat) : List Nat :=
  let ws := sha256Schedule block
  let s0 : Sha256State :=
    { a := hs.getD 0 0, b := hs.getD 1 0, c := hs.getD 2 0, d := hs.getD 3 0,
      e := hs.getD 4 0, f := hs.getD 5 0, g := hs.getD 6 0, h := hs.getD 7 0 }
  let s := (List.range 64).foldl (fun s i => sha256Round (sha256K.getD i 0) (ws.getD i 0) s) s0
  [(hs.getD 0 0 + s.a) % 2 ^ 32, (hs.getD 1 0 + s.b) % 2 ^ 32, (hs.getD 2 0 + s.c) % 2 ^ 32,
   (hs.getD 3 0 + s.d) % 2 ^ 32, (hs.getD 4 0 + s.e) % 2 ^ 32, (hs.getD 5 0 + s.f) % 2 ^ 32,
   (hs.getD 6 0 + s.g) % 2 ^ 32, (hs.getD 7 0 + s.h) % 2 ^ 32]

/-- Serialization of a 32-bit word into 4 big-endian bytes. -/
def wordToBytesBE (w : Nat) : List Nat :=
  [(w >>> 24) % 256, (w >>> 16) % 256, (w >>> 8) % 256, w % 256]

/-- Full SHA-256 of a byte list, producing the 32-byte digest. -/
def sha256Bytes (msg : List Nat) : List Nat :=
  (((wordsToBlocks (bytesToWordsBE (sha256Pad msg))).foldl sha256Compress
      sha256InitHash).map wordToBytesBE).flatten

/-- Lowercase hexadecimal digit, as produced by the hex crate's encode. -/
def hexDigit (n : Nat) : Char :=
  if n < 10 then Char.ofNat (48 + n) else Char.ofNat (87 + n)

/-- Lowercase hexadecimal encoding of a byte list, two digits per byte,
matching hex::encode. -/
def hexEncode (bytes : List Nat) : String :=
  String.mk ((bytes.map (fun b => [hexDigit (b / 16), hexDigit (b % 16)])).flatten)

/-- Standard UTF-8 encoding of one character. -/
def charUtf8 (c : Char) : List Nat :=
  let n := c.toNat
  if n < 0x80 then [n]
  else if n < 0x800 then [0xc0 ||| (n >>> 6), 0x80 ||| (n &&& 0x3f)]
  else if n < 0x10000 then
    [0xe0 ||| (n >>> 12), 0x80 ||| ((n >>> 6) &&& 0x3f), 0x80 ||| (n &&& 0x3f)]
  else
    [0xf0 ||| (n >>> 18), 0x80 ||| ((n >>> 12) &&& 0x3f), 0x80 ||| ((n >>> 6) &&& 0x3f),
     0x80 ||| (n &&& 0x3f)]

/-- Byte sequence of a string under UTF-8, the representation Rust hashes when
a `String` is fed to a hasher. -/
def utf8Bytes (s : String) : List Nat := (s.data.map charUtf8).flatten

/-- Little-endian 4-byte serialization of an f32 value's 32-bit pattern,
modelling `f32::to_le_bytes`. -/
def f32LeBytes (x : Nat) : List Nat :=
  [x % 256, (x >>> 8) % 256, (x >>> 16) % 256, (x >>> 24) % 256]

/-- Streaming SHA-256 hasher of the sha2 crate, modelled by the bytes absorbed
so far: `finalize (update* new)` digests the concatenation of all updates. -/
structure Sha256Hasher where
  buf : List Nat

/-- Fresh hasher, modelling `Sha256::new()`. -/
def Sha256Hasher.new : Sha256Hasher := { buf := [] }

/-- Absorption of bytes, modelling `hasher.update(data)`. -/
def Sha256Hasher.update (hasher : Sha256Hasher) (data : List Nat) : Sha256Hasher :=
  { buf := hasher.buf ++ data }

/-- Digest of everything absorbed, modelling `hasher.finalize()`. -/
def Sha256Hasher.finalize (hasher : Sha256Hasher) : List Nat := sha256Bytes hasher.buf

namespace Prover

/-- Commitment to model weights, prover.rs lines 195-199: SHA-256 of the raw
model bytes, rendered as 0x-prefixed lowercase hex. -/
def compute_model_commitment (model_bytes : List Nat) : String :=
  "0x" ++ hexEncode (Sha256Hasher.finalize (Sha256Hasher.update Sha256Hasher.new model_bytes))

/-- Hash of the input floats, prover.rs lines 202-208: each f32's
little-endian bytes are absorbed in sequence order. -/
def compute_input_hash (inputs : List Nat) : String :=
  "0x" ++ hexEncode (Sha256Hasher.finalize (inputs.foldl
    (fun hasher input => Sha256Hasher.update hasher (f32LeBytes input)) Sha256Hasher.new))

/-- Hash of the output floats, prover.rs lines 211-217, same scheme as
compute_input_hash. -/
def compute_output_hash (outputs : List Nat) : String :=
  "0x" ++ hexEncode (Sha256Hasher.finalize (outputs.foldl
    (fun hasher output => Sha256Hasher.update hasher (f32LeBytes output)) Sha256Hasher.new))

/-- Mock proof artifact structure serialized to JSON by generate_mock_proof
and parsed back by verify_mock_proof (prover.rs lines 279-292 and 330-344).
Field names follow the source; outputs holds f32 bit patterns. -/
structure MockProof where
  version : Nat
  prover : String
  model_commitment : String
  input_hash : String
  output_hash : String
  outputs : List Nat
  timestamp : Nat
  commitment_randomness : String
  sumcheck_proof : String
  lookup_proof : String

/-- Artifact construction, prover.rs lines 269-321 (generate_mock_proof up to
JSON/base64 serialization, which round-trips through the external codecs):
the seed is SHA-256 over the UTF-8 text of the three hex strings, and the
binding fields are hex fragments of it. -/
def generate_mock_proof (model_commitment input_hash output_hash : String)
    (outputs : List Nat) (timestamp : Nat) : MockProof :=
  let hasher := Sha256Hasher.new
  let hasher := Sha256Hasher.update hasher (utf8Bytes model_commitment)
  let hasher := Sha256Hasher.update hasher (utf8Bytes input_hash)
  let hasher := Sha256Hasher.update hasher (utf8Bytes output_hash)
  let proof_seed := Sha256Hasher.finalize hasher
  { version := 1
    prover := "jolt-atlas-mock-v1"
    model_commitment := model_commitment
    input_hash := input_hash
    output_hash := output_hash
    outputs := outputs
    timestamp := timestamp
    commitment_randomness := hexEncode (List.take 16 proof_seed)
    sumcheck_proof := hexEncode (List.take 16 (List.drop 16 proof_seed))
    lookup_proof := hexEncode (Sha256Hasher.finalize
      (Sha256Hasher.update (Sha256Hasher.update Sha256Hasher.new proof_seed)
        (utf8Bytes ("lookup")))) }

/-- Verification checks on a parsed artifact, prover.rs lines 350-391: version,
prover identifier, the three field-against-claim equalities, then the two
re-derived seed fragments; lookup_proof, outputs and timestamp are never
inspected. -/
def verify_mock_proof (p : MockProof)
    (model_commitment input_hash output_hash : String) : Bool :=
  if p.version ≠ 1 then false
  else if p.prover ≠ "jolt-atlas-mock-v1" then false
  else if p.model_commitment ≠ model_commitment then false
  else if p.input_hash ≠ input_hash then false
  else if p.output_hash ≠ output_hash then false
  else
    let hasher := Sha256Hasher.new
    let hasher := Sha256Hasher.update hasher (utf8Bytes p.model_commitment)
    let hasher := Sha256Hasher.update hasher (utf8Bytes p.input_hash)
    let hasher := Sha256Hasher.update hasher (utf8Bytes p.output_hash)
    let expected_seed := Sha256Hasher.finalize hasher
    let expected_commitment_randomness := hexEncode (List.take 16 expected_seed)
    let expected_sumcheck := hexEncode (List.take 16 (List.drop 16 expected_seed))
    if p.commitment_randomness ≠ expected_commitment_randomness then false
    else if p.sumcheck_proof ≠ expected_sumcheck then false
    else true

/-- Full verify_mock_proof, prover.rs lines 324-391: the base64 decode and
serde_json parse of the submitted proof are external codecs, so their combined
outcome is taken as an `Except` argument; a decode or parse failure propagates
as a hard error through the question-mark operator, and only a fully parsed
artifact reaches the boolean checks. -/
def verify_mock_proof_from_parse (parsed : Except String MockProof)
    (model_commitment input_hash output_hash : String) : Except String Bool :=
  match parsed with
  | Except.error e => Except.error e
  | Except.ok p => Except.ok (verify_mock_proof p model_commitment input_hash output_hash)

/-- Registered model record, types.rs lines 139-145, with the storage path as
a string. -/
structure ModelInfo where
  id : String
  name : String
  commitment : String
  path : String

/-- Loadability check, prover.rs lines 189-192: the body returns `Ok(())`
unconditionally (the comment defers real validation to production). -/
def verify_model_loadable (_model_path : String) : Except String Unit := Except.ok ()

/-- Model registration after the base64 decode of the request, prover.rs lines
56-85: computes the commitment, assigns the fresh uuid (passed in explicitly,
modelling `uuid::Uuid::new_v4()` as an external entropy source), writes the
bytes to `<id>.onnx` under the model directory, and runs the loadability
check. -/
def register_model (fresh_id : String) (name : String) (model_bytes : List Nat) :
    Except String ModelInfo :=
  let commitment := compute_model_commitment model_bytes
  let model_path := fresh_id ++ ".onnx"
  match verify_model_loadable model_path with
  | Except.error e => Except.error e
  | Except.ok _ =>
      Except.ok { id := fresh_id, name := name, commitment := commitment, path := model_path }

end Prover

namespace Verification

/-- Client-side input hash, verification.rs lines 30-36. -/
def compute_input_hash (inputs : List Nat) : String :=
  "0x" ++ hexEncode (Sha256Hasher.finalize (inputs.foldl
    (fun hasher input => Sha256Hasher.update hasher (f32LeBytes input)) Sha256Hasher.new))

/-- Client-side output hash, verification.rs lines 39-45. -/
def compute_output_hash (outputs : List Nat) : String :=
  "0x" ++ hexEncode (Sha256Hasher.finalize (outputs.foldl
    (fun hasher output => Sha256Hasher.update hasher (f32LeBytes output)) Sha256Hasher.new))

end Verification

/-- Seed derivation as the spec words it (section 4.2 derive_seed): SHA-256 of
the concatenated UTF-8 texts of the three hex strings.  Stated from the spec,
to be compared with what generate_mock_proof computes. -/
def deriveSeedSpec (model_commitment input_hash output_hash : String) : List Nat :=
  sha256Bytes (utf8Bytes model_commitment ++ utf8Bytes input_hash ++ utf8Bytes output_hash)

theorem foldl_update_buf (xs : List Nat) (acc : Sha256Hasher) :
    (xs.foldl (fun hasher x => Sha256Hasher.update hasher (f32LeBytes x)) acc).buf
      = acc.buf ++ (xs.map f32LeBytes).flatten := by
  induction xs generalizing acc with
  | nil => simp
  | cons x xs ihx =>
      rw [List.foldl_cons, ihx]
      simp [Sha256Hasher.update, List.append_assoc]

theorem verify_generate_eq_true (c ihash ohash : String) (o : List Nat) (t : Nat) :
    Prover.verify_mock_proof (Prover.generate_mock_proof c ihash ohash o t) c ihash ohash
      = true := by
  simp [Prover.verify_mock_proof, Prover.generate_mock_proof]

/-- C1: for every model commitment, input hash, output hash, output vector and
timestamp, verifying the artifact produced by generate_mock_proof against the
same claimed triple yields Ok(true): the mock prover's self-consistency law. -/
theorem mock_proof_self_consistency (c ihash ohash : String) (o : List Nat) (t : Nat) :
    Prover.verify_mock_proof_from_parse
        (Except.ok (Prover.generate_mock_proof c ihash ohash o t)) c ihash ohash
      = Except.ok true := by
  simp only [Prover.verify_mock_proof_from_parse, verify_generate_eq_true]

/-- C2: replacing any one of model_commitment, input_hash or output_hash in a
packed artifact by a different string, while the claimed triple stays the
original, makes verify_mock_proof return false. -/
theorem mock_proof_tamper_detection (c ihash ohash : String) (o : List Nat) (t : Nat)
    (c' ihash' ohash' : String) (hc : c' ≠ c) (hi : ihash' ≠ ihash) (ho : ohash' ≠ ohash) :
    Prover.verify_mock_proof
        { Prover.generate_mock_proof c ihash ohash o t with model_commitment := c' }
        c ihash ohash = false ∧
    Prover.verify_mock_proof
        { Prover.generate_mock_proof c ihash ohash o t with input_hash := ihash' }
        c ihash ohash = false ∧
    Prover.verify_mock_proof
        { Prover.generate_mock_proof c ihash ohash o t with output_hash := ohash' }
        c ihash ohash = false := by
  refine ⟨?_, ?_, ?_⟩ <;>
    simp [Prover.verify_mock_proof, Prover.generate_mock_proof, hc, hi, ho]

theorem mock_proof_tamper_detection_witness :
    (("0xb" : String) ≠ "0xa") ∧ (("0xd" : String) ≠ "0xc") ∧ (("0xf" : String) ≠ "0xe") ∧
    (Prover.verify_mock_proof
        { Prover.generate_mock_proof ("0xa") ("0xc") ("0xe") [] 0 with
            model_commitment := "0xb" }
        ("0xa") ("0xc") ("0xe") = false ∧
     Prover.verify_mock_proof
        { Prover.generate_mock_proof ("0xa") ("0xc") ("0xe") [] 0 with input_hash := "0xd" }
        ("0xa") ("0xc") ("0xe") = false ∧
     Prover.verify_mock_proof
        { Prover.generate_mock_proof ("0xa") ("0xc") ("0xe") [] 0 with output_hash := "0xf" }
        ("0xa") ("0xc") ("0xe") = false) :=
  ⟨by decide, by decide, by decide,
    mock_proof_tamper_detection ("0xa") ("0xc") ("0xe") [] 0 ("0xb") ("0xd") ("0xf")
      (by decide) (by decide) (by decide)⟩

/-- C3 counterexample: registering a model whose bytes decode to the empty
byte sequence succeeds (verify_model_loadable is an unconditional Ok), so the
claimed InvalidModelError rejection of empty models does not happen. -/
theorem register_empty_model_succeeds :
    Prover.register_model ("id-0") ("empty-model") []
      = Except.ok
          { id := "id-0", name := "empty-model",
            commitment := Prover.compute_model_commitment [],
            path := "id-0" ++ ".onnx" } := rfl

/-- C3 amended: register_model performs no loadability validation at all:
verify_model_loadable returns Ok(()) unconditionally, so registration after a
successful base64 decode always succeeds, for empty byte sequences included. -/
theorem register_model_no_loadability_check (fresh_id nm : String) (bytes : List Nat) :
    Prover.verify_model_loadable (fresh_id ++ ".onnx") = Except.ok () ∧
    Prover.register_model fresh_id nm bytes
      = Except.ok
          { id := fresh_id, name := nm,
            commitment := Prover.compute_model_commitment bytes,
            path := fresh_id ++ ".onnx" } :=
  ⟨rfl, rfl⟩

/-- C4: the result of verify_mock_proof does not depend on the artifact's
lookup_proof (binding_check_2) field: two artifacts identical except in that
field verify identically against any claimed triple. -/
theorem verify_ignores_lookup_proof (p : Prover.MockProof) (c ihash ohash lp : String) :
    Prover.verify_mock_proof { p with lookup_proof := lp } c ihash ohash
      = Prover.verify_mock_proof p c ihash ohash := rfl

/-- C5: compute_input_hash (and compute_output_hash, on the service and on the
client side alike) equals SHA-256 over the concatenation of each value's
little-endian 4-byte representation in sequence order, 0x-prefixed lowercase
hex; the empty sequence hashes to SHA-256 of the empty byte string. -/
theorem compute_input_hash_concat_spec (xs : List Nat) :
    Prover.compute_input_hash xs
        = "0x" ++ hexEncode (sha256Bytes ((xs.map f32LeBytes).flatten)) ∧
    Prover.compute_output_hash xs = Prover.compute_input_hash xs ∧
    Verification.compute_input_hash xs = Prover.compute_input_hash xs ∧
    Verification.compute_output_hash xs = Prover.compute_input_hash xs ∧
    Prover.compute_input_hash [] = "0x" ++ hexEncode (sha256Bytes []) := by
  refine ⟨?_, rfl, rfl, rfl, rfl⟩
  simp [Prover.compute_input_hash, Sha256Hasher.finalize, Sha256Hasher.new, foldl_update_buf]

/-- C6: generate_mock_proof derives its seed as SHA-256 over the UTF-8 texts
of the three hex strings and sets binding_randomness (commitment_randomness)
to hex of seed bytes 0..16, binding_check_1 (sumcheck_proof) to hex of seed
bytes 16..32, binding_check_2 (lookup_proof) to hex of SHA-256 of the seed
followed by the lookup tag, version 1 and the fixed prover identifier. -/
theorem generate_mock_proof_binding_fields (c ihash ohash : String) (o : List Nat) (t : Nat) :
    (Prover.generate_mock_proof c ihash ohash o t).commitment_randomness
        = hexEncode (List.take 16 (deriveSeedSpec c ihash ohash)) ∧
    (Prover.generate_mock_proof c ihash ohash o t).sumcheck_proof
        = hexEncode (List.take 16 (List.drop 16 (deriveSeedSpec c ihash ohash))) ∧
    (Prover.generate_mock_proof c ihash ohash o t).lookup_proof
        = hexEncode (sha256Bytes (deriveSeedSpec c ihash ohash ++ utf8Bytes ("lookup"))) ∧
    (Prover.generate_mock_proof c ihash ohash o t).version = 1 ∧
    (Prover.generate_mock_proof c ihash ohash o t).prover = "jolt-atlas-mock-v1" ∧
    (Prover.generate_mock_proof c ihash ohash o t).model_commitment = c ∧
    (Prover.generate_mock_proof c ihash ohash o t).input_hash = ihash ∧
    (Prover.generate_mock_proof c ihash ohash o t).output_hash = ohash ∧
    (Prover.generate_mock_proof c ihash ohash o t).outputs = o ∧
    (Prover.generate_mock_proof c ihash ohash o t).timestamp = t := by
  simp [Prover.generate_mock_proof, deriveSeedSpec, Sha256Hasher.new, Sha256Hasher.update,
    Sha256Hasher.finalize]

/-- C7: full verification distinguishes parse failure from binding mismatch:
a decode/parse failure propagates as a hard error and never becomes Ok(false),
while every successfully parsed artifact yields an Ok boolean and never an
error. -/
theorem verify_parse_error_vs_mismatch (pr : Except String Prover.MockProof)
    (c ihash ohash : String) :
    (Prover.verify_mock_proof_from_parse pr c ihash ohash).isOk = pr.isOk ∧
    (∀ e, Prover.verify_mock_proof_from_parse (Except.error e) c ihash ohash
        = Except.error e) ∧
    (∀ p, Prover.verify_mock_proof_from_parse (Except.ok p) c ihash ohash
        = Except.ok (Prover.verify_mock_proof p c ihash ohash)) := by
  refine ⟨?_, fun e => rfl, fun p => rfl⟩
  cases pr <;> rfl

/-- C8: any artifact whose version field is not 1 fails verification,
regardless of every other field. -/
theorem verify_rejects_wrong_version (p : Prover.MockProof) (c ihash ohash : String)
    (hv : p.version ≠ 1) :
    Prover.verify_mock_proof p c ihash ohash = false := by
  simp [Prover.verify_mock_proof, hv]

theorem verify_rejects_wrong_version_witness :
    ({ Prover.generate_mock_proof ("0xa") ("0xb") ("0xc") [] 7 with version := 2 }
        : Prover.MockProof).version ≠ 1 ∧
    Prover.verify_mock_proof
        { Prover.generate_mock_proof ("0xa") ("0xb") ("0xc") [] 7 with version := 2 }
        ("0xa") ("0xb") ("0xc") = false :=
  ⟨by decide, verify_rejects_wrong_version _ ("0xa") ("0xb") ("0xc") (by decide)⟩

/-- C9: registration is content-deterministic: the commitment is 0x plus the
lowercase hex of SHA-256 of the decoded bytes, so identical bytes registered
under any names and fresh ids receive identical commitments, while distinct
fresh ids give distinct record ids. -/
theorem register_content_deterministic (bytes : List Nat) (n1 n2 id1 id2 : String)
    (hid : id1 ≠ id2) :
    Prover.register_model id1 n1 bytes
        = Except.ok
            { id := id1, name := n1,
              commitment := Prover.compute_model_commitment bytes,
              path := id1 ++ ".onnx" } ∧
    Prover.register_model id2 n2 bytes
        = Except.ok
            { id := id2, name := n2,
              commitment := Prover.compute_model_commitment bytes,
              path := id2 ++ ".onnx" } ∧
    Prover.compute_model_commitment bytes = "0x" ++ hexEncode (sha256Bytes bytes) ∧
    id1 ≠ id2 :=
  ⟨rfl, rfl, rfl, hid⟩

theorem register_content_deterministic_witness :
    (("id-1" : String) ≠ "id-2") ∧
    (Prover.register_model ("id-1") ("m1") [0, 1, 2]
        = Except.ok
            { id := "id-1", name := "m1",
              commitment := Prover.compute_model_commitment [0, 1, 2],
              path := "id-1" ++ ".onnx" } ∧
     Prover.register_model ("id-2") ("m2") [0, 1, 2]
        = Except.ok
            { id := "id-2", name := "m2",
              commitment := Prover.compute_model_commitment [0, 1, 2],
              path := "id-2" ++ ".onnx" } ∧
     Prover.compute_model_commitment [0, 1, 2] = "0x" ++ hexEncode (sha256Bytes [0, 1, 2]) ∧
     ("id-1" : String) ≠ "id-2") :=
  ⟨by decide,
    register_content_deterministic [0, 1, 2] ("m1") ("m2") ("id-1") ("id-2") (by decide)⟩

/-- C10: the result of verification does not depend on the artifact's outputs
or timestamp fields, and in particular a packed artifact with altered outputs
but unchanged output_hash still verifies. -/
theorem verify_ignores_outputs_timestamp :
    (∀ (p : Prover.MockProof) (c ihash ohash : String) (o' : List Nat) (t' : Nat),
      Prover.verify_mock_proof { p with outputs := o', timestamp := t' } c ihash ohash
        = Prover.verify_mock_proof p c ihash ohash) ∧
    (∀ (c ihash ohash : String) (o o' : List Nat) (t : Nat),
      Prover.verify_mock_proof
          { Prover.generate_mock_proof c ihash ohash o t with outputs := o' }
          c ihash ohash = true) :=
  ⟨fun _ _ _ _ _ _ => rfl,
   fun c ihash ohash o _ t => verify_generate_eq_true c ihash ohash o t⟩

end CoinbaseProver
